import Mathlib

/-!
Shallow embedding of the agorama chat-room scheduler (Python repository
`zamborg/agorama`) and proofs about it.

Modelling conventions:
- Timestamps (`datetime` in the source) are modelled as `Nat`; the only
  operations the source performs on them are creation and `≤`-comparison
  as a sort key.
- Python `sorted(xs, key=f)` is a stable ascending sort: modelled by
  `List.mergeSort` with the corresponding Boolean relation (Lean's
  `mergeSort` is stable, like Python's timsort).
- Python dicts whose keys are strings are modelled as association lists
  `List (String × String)` with lookup `dictGet`, update `dictSet`,
  deletion `dictDel`; `k in d` is `dictHasKey`.
- Exceptions are modelled with `Except PyError`; each `PyError`
  constructor names the Python exception class raised by the source.
- The completion backend (`litellm.acompletion`, external to the core per
  the spec) is an oracle `Backend`: the result of the n-th completion
  call the agent issues.  A call can return a well-formed response with
  textual content, return a response missing the expected
  `choices/message/content` structure (so that subscripting raises
  `KeyError`), or itself raise.
-/

/-- Python exception classes that the modelled code can raise. -/
inductive PyError where
  | keyError (key : String)
  | validationError
  | backendError
  | valueErrorUnknownAction (name : String)
  deriving Repr, DecidableEq

/-- Embeds `ChatMessage` from `src/agorama/models.py`: fields `message`,
`created_by`, `created_at` (timestamp modelled as `Nat`). -/
structure ChatMessage where
  message : String
  created_by : String
  created_at : Nat
  deriving Repr, DecidableEq

/-- Embeds `ChatRoom` from `src/agorama/models.py`: a `room_name` and an
ordered list of messages. -/
structure ChatRoom where
  room_name : String
  messages : List ChatMessage
  deriving Repr, DecidableEq

/-- Embeds `ChatRoom.add_message`: `self.messages.append(message)`. -/
def ChatRoom.add_message (room : ChatRoom) (m : ChatMessage) : ChatRoom :=
  { room with messages := room.messages ++ [m] }

/-- Ascending comparison on `created_at`, the sort key
`lambda x: x.created_at` used by the source. -/
def createdAtLE (a b : ChatMessage) : Prop :=
  a.created_at ≤ b.created_at

/-- Descending comparison on `created_at`: Python
`sorted(..., key=lambda x: x.created_at, reverse=True)` orders by this
relation (stably). -/
def createdAtGE (a b : ChatMessage) : Prop :=
  b.created_at ≤ a.created_at

instance : DecidableRel createdAtLE :=
  fun a b => Nat.decLe a.created_at b.created_at

instance : DecidableRel createdAtGE :=
  fun a b => Nat.decLe b.created_at a.created_at

instance : IsTotal ChatMessage createdAtLE :=
  ⟨fun a b => Nat.le_total a.created_at b.created_at⟩

instance : IsTrans ChatMessage createdAtLE :=
  ⟨fun _ _ _ hab hbc => Nat.le_trans hab hbc⟩

instance : IsTotal ChatMessage createdAtGE :=
  ⟨fun a b => Nat.le_total b.created_at a.created_at⟩

instance : IsTrans ChatMessage createdAtGE :=
  ⟨fun _ _ _ hab hbc => Nat.le_trans hbc hab⟩

/-- Embeds `ChatRoom.add_messages`:
`self.messages.extend(sorted(messages, key=lambda x: x.created_at))`.
Python `sorted` is a stable ascending sort; `List.insertionSort` with
this relation computes exactly the stable ascending reordering (ties
keep their original relative order), and evaluates by kernel
reduction. -/
def ChatRoom.add_messages (room : ChatRoom) (ms : List ChatMessage) : ChatRoom :=
  { room with messages := room.messages ++ ms.insertionSort createdAtLE }

/-- Embeds the structured document `asdict` produces for one message when
`ChatRoom.to_yaml` dumps a room (YAML encoding of the scalar fields is
external glue, modelled as faithful). -/
structure MessageDoc where
  message : String
  created_by : String
  created_at : Nat
  deriving Repr, DecidableEq

/-- Embeds the structured document `asdict(self)` produces for a room in
`ChatRoom.to_yaml`. -/
structure RoomDoc where
  room_name : String
  messages : List MessageDoc
  deriving Repr, DecidableEq

/-- Embeds `dataclasses.asdict` on one `ChatMessage`. -/
def ChatMessage.asdict (m : ChatMessage) : MessageDoc :=
  ⟨m.message, m.created_by, m.created_at⟩

/-- Embeds `ChatMessage(**message)` applied to a deserialized message
document in `ChatRoom.from_yaml`. -/
def ChatMessage.of_dict (d : MessageDoc) : ChatMessage :=
  ⟨d.message, d.created_by, d.created_at⟩

/-- Embeds `ChatRoom.to_yaml`: `yaml.dump(asdict(self), f)`.  The YAML
text encoding and the file write are external; the document structure is
what the source serializes. -/
def ChatRoom.to_yaml (room : ChatRoom) : RoomDoc :=
  ⟨room.room_name, room.messages.map ChatMessage.asdict⟩

/-- Embeds `ChatRoom.from_yaml`: rebuilds the room from the loaded
document, `ChatRoom(room_name=..., messages=[ChatMessage(**m) ...])`. -/
def ChatRoom.from_yaml (doc : RoomDoc) : ChatRoom :=
  ⟨doc.room_name, doc.messages.map ChatMessage.of_dict⟩

/-- Outcome of one completion call against the external backend
(`self.chat(...)` resolving one `litellm.acompletion`).  `text c` is a
well-formed response whose `choices[0].message.content` is `c`;
`malformed` is a response on which that subscript chain raises
`KeyError`; `raises` is a completion call that itself raises. -/
inductive BackendResult where
  | text (content : String)
  | malformed
  | raises
  deriving Repr, DecidableEq

/-- Oracle for the external completion backend: `respond n` is the
outcome of the n-th completion call this agent issues (0-indexed). -/
structure Backend where
  respond : Nat → BackendResult

/-- ASCII lower-casing of one character, the fragment of Python
`str.lower` the gate comparison exercises (defined on the character list
so that it evaluates by kernel reduction). -/
def asciiLower (c : Char) : Char :=
  if 65 ≤ c.toNat ∧ c.toNat ≤ 90 then Char.ofNat (c.toNat + 32) else c

/-- Python `str.lower` (ASCII fragment). -/
def pyLower (s : String) : String :=
  ⟨s.data.map asciiLower⟩

/-- Python `str.strip`: drop whitespace from both ends. -/
def pyStrip (s : String) : String :=
  ⟨((s.data.dropWhile Char.isWhitespace).reverse.dropWhile
      Char.isWhitespace).reverse⟩

/-- Embeds the parse in `ReasoningAgent.reason`
(`src/agorama/reasoning_agent.py` line 22):
`response['choices'][0]['message']['content'].strip().lower() == 'yes'`. -/
def parseYes (content : String) : Bool :=
  pyLower (pyStrip content) == "yes"

/-- Embeds one evaluation of `ReasoningAgent.reason` given that the
agent has already issued `calls` completion calls.  The body wraps only
`except ValidationError` around the parse; constructing
`ReasoningResponse(should_respond=<python bool>)` never raises
`ValidationError`, so that handler is dead code, while a `KeyError` from
subscripting a malformed response and any exception raised by
`self.chat` itself propagate.  Returns the parsed boolean and the new
completion-call count. -/
def ReasoningAgent.reason (be : Backend) (calls : Nat) :
    Except PyError (Bool × Nat) :=
  match be.respond calls with
  | .raises => .error .backendError
  | .malformed => .error (.keyError "choices")
  | .text c => .ok (parseYes c, calls + 1)

/-- Result of one `ReasoningAgent.act` invocation: the returned message,
the completion-call counter afterwards, and `gateEvals`, an
instrumentation counter that increments exactly where the source calls
`self.reason` (so it counts gate evaluations, which the source does not
itself return). -/
structure ActResult where
  msg : ChatMessage
  nextCall : Nat
  gateEvals : Nat
  deriving Repr, DecidableEq

/-- Embeds `ReasoningAgent.act` (`src/agorama/reasoning_agent.py` lines
27-39).  The source calls `self.reason(chat_room.messages)` up to three
times: twice in duplicated early-return guards and once more in the
final `if`; only if that third call also answers yes does it issue the
response completion call.  `now` is the timestamp `datetime.now` gives
the messages this invocation creates; `calls` is the completion-call
counter on entry. -/
def ReasoningAgent.act (name : String) (be : Backend) (calls now : Nat) :
    Except PyError ActResult :=
  match ReasoningAgent.reason be calls with
  | .error e => .error e
  | .ok (b1, c1) =>
    if !b1 then .ok ⟨⟨"", name, now⟩, c1, 1⟩
    else
      match ReasoningAgent.reason be c1 with
      | .error e => .error e
      | .ok (b2, c2) =>
        if !b2 then .ok ⟨⟨"", name, now⟩, c2, 2⟩
        else
          match ReasoningAgent.reason be c2 with
          | .error e => .error e
          | .ok (b3, c3) =>
            if b3 then
              match be.respond c3 with
              | .raises => .error .backendError
              | .malformed => .error (.keyError "choices")
              | .text content => .ok ⟨⟨content, name, now⟩, c3 + 1, 3⟩
            else .ok ⟨⟨"", name, now⟩, c3, 3⟩

/-- One agent as the scheduler sees it: its `name`, its completion
backend, and the timestamp `datetime.now` yields for the messages it
creates during this tick. -/
structure ReasoningAgentSpec where
  name : String
  backend : Backend
  now : Nat

/-- Commit phase of `ReasoningYamlAgorama.tick` (`src/agorama/agorama.py`
lines 53-54): iterate over
`sorted(responses, key=lambda x: x.created_at, reverse=True)` — a stable
DESCENDING sort, modelled by the stable `List.insertionSort` under the
descending relation — and `add_message` each response in that order. -/
def ReasoningYamlAgorama.tickCommit (room : ChatRoom)
    (responses : List ChatMessage) : ChatRoom :=
  (responses.insertionSort createdAtGE).foldl ChatRoom.add_message room

/-- Embeds `asyncio.gather` over `[agent.act(self.chat_room) for agent
in self.agents]`: every agent runs its act cycle against the same
start-of-tick room (each starting at completion-call counter 0), and the
results come back in agent order.  `gather` re-raises an exception from
a failing task, so a failing agent fails the whole tick (rendered
deterministically as the first failing agent in list order). -/
def gatherActs : List ReasoningAgentSpec → Except PyError (List ActResult)
  | [] => .ok []
  | a :: rest =>
    match ReasoningAgent.act a.name a.backend 0 a.now with
    | .error e => .error e
    | .ok r =>
      match gatherActs rest with
      | .error e => .error e
      | .ok rs => .ok (r :: rs)

/-- Embeds `ReasoningYamlAgorama.tick` (`src/agorama/agorama.py` lines
47-54): gather every agent's response, then commit the batch. -/
def ReasoningYamlAgorama.tick (agents : List ReasoningAgentSpec)
    (room : ChatRoom) : Except PyError ChatRoom :=
  match gatherActs agents with
  | .error e => .error e
  | .ok results =>
    .ok (ReasoningYamlAgorama.tickCommit room (results.map ActResult.msg))

/-- Python dict lookup `d[k]` as an option (association list model). -/
def dictGet (d : List (String × String)) (k : String) : Option String :=
  (d.find? (fun p => p.1 == k)).map Prod.snd

/-- Python dict membership `k in d`. -/
def dictHasKey (d : List (String × String)) (k : String) : Bool :=
  d.any (fun p => p.1 == k)

/-- Python dict assignment `d[k] = v`: overwrite the existing entry for
`k`, else append a new one (dict keys are unique). -/
def dictSet (d : List (String × String)) (k v : String) :
    List (String × String) :=
  if dictHasKey d k then
    d.map (fun p => if p.1 == k then (k, v) else p)
  else
    d ++ [(k, v)]

/-- Python `del d[k]`: drop the entry for `k`. -/
def dictDel (d : List (String × String)) (k : String) :
    List (String × String) :=
  d.filter (fun p => !(p.1 == k))

/-- Outcome of the memory-key-selection completion call in
`ChatAgentWithMemory.perceive`, after `MemoryKeyAccess.model_validate_json`
is applied to its content: either a validated `key_list`, or content that
fails validation (not JSON, or JSON not matching the `MemoryKeyAccess`
schema), on which `model_validate_json` raises `ValidationError`. -/
inductive KeySelResponse where
  | parsed (key_list : List String)
  | unparseable
  deriving Repr, DecidableEq

/-- Embeds the loop in `ChatAgentWithMemory.perceive` lines 224-227:
`for key in memory_response.key_list: contextual_memory[key] =
self.state['memory'][key]` — the subscript on `memory` raises `KeyError`
when `key` is absent. -/
def buildContextualMemory (memory : List (String × String)) :
    List String → List (String × String) →
    Except PyError (List (String × String))
  | [], acc => .ok acc
  | k :: rest, acc =>
    match dictGet memory k with
    | none => .error (.keyError k)
    | some v => buildContextualMemory memory rest (dictSet acc k v)

/-- Embeds `ChatAgentWithMemory.perceive`
(`src/agorama/state_agent/state_agent.py` lines 204-229) restricted to
its state effect on `contextual_memory`: validate the key-selection
response (no try/except — `ValidationError` propagates), then either
copy each listed key's value out of `memory` (a missing key raises
`KeyError`) or, for an empty validated list, set `contextual_memory` to
the empty dict.  Returns the new `contextual_memory`. -/
def ChatAgentWithMemory.perceive (memory : List (String × String))
    (resp : KeySelResponse) : Except PyError (List (String × String)) :=
  match resp with
  | .unparseable => .error .validationError
  | .parsed keys =>
    if keys.length > 0 then
      buildContextualMemory memory keys []
    else
      .ok []

/-- Embeds `BasePerceptionAgent.act`
(`src/agorama/state_agent/state_agent.py` lines 129-136 and
`src/agorama/agent_complex.py` lines 88-97): if `action_name` is not a
key of `self.actions`, raise
`ValueError(f"Action '{action_name}' is not defined in this agent.")`;
otherwise invoke the registered handler, which may update agent state
and return a result.  The registry is an association list from action
name to handler `σ → σ × ρ` (state in, state and result out). -/
def BasePerceptionAgent.act {σ ρ : Type}
    (actions : List (String × (σ → σ × ρ))) (st : σ) (action_name : String) :
    Except PyError (σ × ρ) :=
  match actions.find? (fun p => p.1 == action_name) with
  | none => .error (.valueErrorUnknownAction action_name)
  | some p => .ok (p.2 st)

/-- Agent state as observed after `BasePerceptionAgent.act`: a raise
happens before any handler runs, so on error the state is unchanged. -/
def BasePerceptionAgent.actState {σ ρ : Type}
    (actions : List (String × (σ → σ × ρ))) (st : σ) (action_name : String) :
    σ :=
  match BasePerceptionAgent.act actions st action_name with
  | .error _ => st
  | .ok r => r.1

/-- Single-quote character, used to spell the result strings of the
source (which contain quoted keys) without an apostrophe token. -/
def squote : String :=
  String.singleton (Char.ofNat 39)

/-- Embeds `ChatAgentWithMemory.remove`
(`src/agorama/state_agent/state_agent.py` lines 270-280): with payload
key `k`, if `k` is in `memory` delete it and report removal, else
return the not-found message; returns the new memory and the result
string. -/
def ChatAgentWithMemory.remove (memory : List (String × String))
    (key : String) : List (String × String) × String :=
  if dictHasKey memory key then
    (dictDel memory key, "Removed " ++ squote ++ key ++ squote ++ " from memory")
  else
    (memory, "Key " ++ squote ++ key ++ squote ++ " not found in memory")

/-- One entry of the `agents` list in the YAML configuration consumed by
`ReasoningYamlAgorama.__init__` (`src/agorama/agorama.py`): modelled by
the set of keys the mapping carries, which is all the membership test
`"model_hub_pair" in agent_dict` inspects. -/
structure AgentEntry where
  keys : List String
  deriving Repr, DecidableEq

/-- Embeds the guard `"model_hub_pair" in agent_dict`. -/
def AgentEntry.hasModelHubPair (d : AgentEntry) : Bool :=
  d.keys.contains "model_hub_pair"

/-- Loaded YAML configuration after the `"agents" not in loaded` check
has passed: the `agents` list. -/
structure AgoramaConfig where
  agents : List AgentEntry
  deriving Repr, DecidableEq

/-- Embeds the agent-construction comprehension of
`ReasoningYamlAgorama.__init__` (`src/agorama/agorama.py` line 37):
`[ReasoningAgent(**d) for d in loaded["agents"] if "model_hub_pair" in d]`.
We keep the kept entries themselves (one `ReasoningAgent` is constructed
per kept entry; the constructor body is backend glue), so the filtered
list's length is the number of agents in the room. -/
def ReasoningYamlAgorama.initAgents (cfg : AgoramaConfig) : List AgentEntry :=
  cfg.agents.filter AgentEntry.hasModelHubPair

/-! Helper lemmas. -/

/-- Reconstructing a message from its serialized document is the
identity. -/
theorem of_dict_asdict (m : ChatMessage) :
    ChatMessage.of_dict (ChatMessage.asdict m) = m := rfl

/-- The ascending stable sort used by `add_messages` yields a list that
is pairwise non-decreasing in `created_at`. -/
theorem insertionSort_createdAtLE_pairwise (l : List ChatMessage) :
    (l.insertionSort createdAtLE).Pairwise
      (fun a b => a.created_at ≤ b.created_at) :=
  List.sorted_insertionSort createdAtLE l

/-- Folding `add_message` over a list appends the list to the log. -/
theorem foldl_add_message (l : List ChatMessage) (room : ChatRoom) :
    (l.foldl ChatRoom.add_message room).messages = room.messages ++ l := by
  induction l generalizing room with
  | nil => simp
  | cons m t ih => simp [ChatRoom.add_message, ih]

/-- C7: serializing a room to its structured document and deserializing
reproduces the room exactly — same room name and the same message
sequence (text, author, timestamp, order). -/
theorem C7_room_serialization_roundtrip (room : ChatRoom) :
    ChatRoom.from_yaml (ChatRoom.to_yaml room) = room := by
  cases room with
  | mk n msgs =>
    simp only [ChatRoom.to_yaml, ChatRoom.from_yaml, List.map_map,
      ChatRoom.mk.injEq, true_and]
    have hcomp : (ChatMessage.of_dict ∘ ChatMessage.asdict) = id := by
      funext m
      exact of_dict_asdict m
    rw [hcomp, List.map_id]

/-- C6: committing a non-empty batch of messages with pairwise distinct
timestamps through `add_messages` leaves the pre-existing prefix
unchanged and makes the appended segment a permutation of the batch that
is non-decreasing in `created_at`. -/
theorem C6_add_messages_sorted_segment (room : ChatRoom)
    (ms : List ChatMessage) (hne : ms ≠ [])
    (hdist : ms.Pairwise (fun a b => a.created_at ≠ b.created_at)) :
    (room.add_messages ms).messages.take room.messages.length =
        room.messages ∧
    ((room.add_messages ms).messages.drop room.messages.length).Pairwise
        (fun a b => a.created_at ≤ b.created_at) ∧
    ((room.add_messages ms).messages.drop room.messages.length).Perm ms := by
  refine ⟨?_, ?_, ?_⟩
  · simp only [ChatRoom.add_messages]
    exact List.take_left _ _
  · simp only [ChatRoom.add_messages, List.drop_left]
    exact insertionSort_createdAtLE_pairwise ms
  · simp only [ChatRoom.add_messages, List.drop_left]
    exact List.perm_insertionSort createdAtLE ms

/-- Witness for C6 at a concrete batch: two messages with timestamps 9
and 4 on a room holding one message with timestamp 1. -/
theorem C6_add_messages_sorted_segment_witness :
    ([⟨"x", "A", 9⟩, ⟨"y", "B", 4⟩] : List ChatMessage) ≠ [] ∧
    ([⟨"x", "A", 9⟩, ⟨"y", "B", 4⟩] : List ChatMessage).Pairwise
        (fun a b => a.created_at ≠ b.created_at) ∧
    (((ChatRoom.mk "r" [⟨"m", "C", 1⟩]).add_messages
        [⟨"x", "A", 9⟩, ⟨"y", "B", 4⟩]).messages.take
        (ChatRoom.mk "r" [⟨"m", "C", 1⟩]).messages.length =
      (ChatRoom.mk "r" [⟨"m", "C", 1⟩]).messages ∧
    (((ChatRoom.mk "r" [⟨"m", "C", 1⟩]).add_messages
        [⟨"x", "A", 9⟩, ⟨"y", "B", 4⟩]).messages.drop
        (ChatRoom.mk "r" [⟨"m", "C", 1⟩]).messages.length).Pairwise
        (fun a b => a.created_at ≤ b.created_at) ∧
    (((ChatRoom.mk "r" [⟨"m", "C", 1⟩]).add_messages
        [⟨"x", "A", 9⟩, ⟨"y", "B", 4⟩]).messages.drop
        (ChatRoom.mk "r" [⟨"m", "C", 1⟩]).messages.length).Perm
        [⟨"x", "A", 9⟩, ⟨"y", "B", 4⟩]) :=
  ⟨by decide, by decide,
    C6_add_messages_sorted_segment (ChatRoom.mk "r" [⟨"m", "C", 1⟩])
      [⟨"x", "A", 9⟩, ⟨"y", "B", 4⟩] (by decide) (by decide)⟩

/-- C10: invoking `remove` with a key absent from the memory store does
not raise — it returns the not-found result string and leaves the memory
unchanged. -/
theorem C10_remove_absent_key (memory : List (String × String))
    (key : String) (h : dictGet memory key = none) :
    ChatAgentWithMemory.remove memory key =
      (memory, "Key " ++ squote ++ key ++ squote ++ " not found in memory") := by
  have hfind : memory.find? (fun p => p.1 == key) = none := by
    cases hf : memory.find? (fun p => p.1 == key) with
    | none => rfl
    | some v =>
      rw [dictGet, hf] at h
      simp at h
  have hk : dictHasKey memory key = false := by
    simp only [dictHasKey, List.any_eq_false]
    intro x hx
    exact List.find?_eq_none.mp hfind x hx
  simp [ChatAgentWithMemory.remove, hk]

/-- Witness for C10: removing the key `color` from a store holding only
the key `a`. -/
theorem C10_remove_absent_key_witness :
    dictGet [("a", "1")] "color" = none ∧
    ChatAgentWithMemory.remove [("a", "1")] "color" =
      ([("a", "1")],
        "Key " ++ squote ++ "color" ++ squote ++ " not found in memory") :=
  ⟨by decide, C10_remove_absent_key [("a", "1")] "color" (by decide)⟩

/-- Strictness helper: filtering out a present element that fails the
predicate shortens the list. -/
theorem length_filter_lt_of_mem_not_pred {α : Type} (p : α → Bool) :
    ∀ (l : List α) (d : α), d ∈ l → p d = false →
      (l.filter p).length < l.length := by
  intro l
  induction l with
  | nil =>
    intro d hd
    simp at hd
  | cons a t ih =>
    intro d hd hp
    rcases List.mem_cons.mp hd with heq | hd2
    · subst heq
      have hle := List.length_filter_le p t
      simp [List.filter_cons, hp]
      omega
    · have hlt := ih d hd2 hp
      cases hpa : p a with
      | false =>
        simp [List.filter_cons, hpa]
        omega
      | true =>
        simp [List.filter_cons, hpa]
        omega

/-- C9: a configuration entry lacking the `model_hub_pair` key is
silently skipped by `ReasoningYamlAgorama.__init__` — it never appears
among the kept entries, construction raises nothing for it (the
comprehension is total on such entries), and the room therefore holds
strictly fewer agents than the configuration lists. -/
theorem C9_entry_without_model_hub_pair_skipped (cfg : AgoramaConfig)
    (d : AgentEntry) (hd : d ∈ cfg.agents)
    (hmiss : d.hasModelHubPair = false) :
    d ∉ ReasoningYamlAgorama.initAgents cfg ∧
    (ReasoningYamlAgorama.initAgents cfg).length < cfg.agents.length := by
  constructor
  · intro hmem
    have := (List.mem_filter.mp hmem).2
    rw [hmiss] at this
    exact Bool.false_ne_true this
  · exact length_filter_lt_of_mem_not_pred AgentEntry.hasModelHubPair
      cfg.agents d hd hmiss

/-- Witness for C9: a configuration with two entries, the second lacking
`model_hub_pair`; only one agent is kept. -/
theorem C9_entry_without_model_hub_pair_skipped_witness :
    (⟨["name"]⟩ : AgentEntry) ∈
      (⟨[⟨["name", "model_hub_pair"]⟩, ⟨["name"]⟩]⟩ : AgoramaConfig).agents ∧
    (⟨["name"]⟩ : AgentEntry).hasModelHubPair = false ∧
    ((⟨["name"]⟩ : AgentEntry) ∉
      ReasoningYamlAgorama.initAgents
        ⟨[⟨["name", "model_hub_pair"]⟩, ⟨["name"]⟩]⟩ ∧
    (ReasoningYamlAgorama.initAgents
        ⟨[⟨["name", "model_hub_pair"]⟩, ⟨["name"]⟩]⟩).length <
      (⟨[⟨["name", "model_hub_pair"]⟩, ⟨["name"]⟩]⟩ : AgoramaConfig).agents.length) :=
  ⟨by decide, by decide,
    C9_entry_without_model_hub_pair_skipped
      ⟨[⟨["name", "model_hub_pair"]⟩, ⟨["name"]⟩]⟩ ⟨["name"]⟩
      (by decide) (by decide)⟩

/-- C5: asking `BasePerceptionAgent.act` for a name absent from the
action registry raises the unknown-action `ValueError` (never a silently
substituted default) and leaves the agent state unchanged, while a name
present in the registry always invokes its handler and never raises this
error. -/
theorem C5_unknown_action_raises {σ ρ : Type}
    (actions : List (String × (σ → σ × ρ))) (st : σ) (name : String) :
    (actions.find? (fun p => p.1 == name) = none →
      BasePerceptionAgent.act actions st name =
        .error (.valueErrorUnknownAction name) ∧
      BasePerceptionAgent.actState actions st name = st) ∧
    (∀ q, actions.find? (fun p => p.1 == name) = some q →
      BasePerceptionAgent.act actions st name = .ok (q.2 st)) := by
  constructor
  · intro hnone
    constructor
    · simp [BasePerceptionAgent.act, hnone]
    · simp [BasePerceptionAgent.actState, BasePerceptionAgent.act, hnone]
  · intro q hq
    simp [BasePerceptionAgent.act, hq]

/-- Witness for C5: a registry holding only `noop` over state `Nat`,
asked for the absent name `fly` and for the present name `noop`. -/
theorem C5_unknown_action_raises_witness :
    (BasePerceptionAgent.act [("noop", fun (s : Nat) => (s, "ok"))] 7 "fly" =
        .error (.valueErrorUnknownAction "fly") ∧
      BasePerceptionAgent.actState
        [("noop", fun (s : Nat) => (s, "ok"))] 7 "fly" = 7) ∧
    BasePerceptionAgent.act [("noop", fun (s : Nat) => (s, "ok"))] 7 "noop" =
      .ok (7, "ok") :=
  ⟨(C5_unknown_action_raises
      [("noop", fun (s : Nat) => (s, "ok"))] 7 "fly").1 rfl,
    (C5_unknown_action_raises
      [("noop", fun (s : Nat) => (s, "ok"))] 7 "noop").2
      ("noop", fun (s : Nat) => (s, "ok")) rfl⟩

/-- A key of a dict after `dictSet` is either an old key or the set
key. -/
theorem dictSet_key_mem (acc : List (String × String)) (k v : String)
    (k2 : String) (h : k2 ∈ (dictSet acc k v).map Prod.fst) :
    k2 ∈ acc.map Prod.fst ∨ k2 = k := by
  rw [dictSet] at h
  by_cases hk : dictHasKey acc k = true
  · rw [if_pos hk] at h
    obtain ⟨p, hp, hpe⟩ := List.mem_map.mp h
    obtain ⟨q, hq, hqe⟩ := List.mem_map.mp hp
    by_cases hqk : (q.1 == k) = true
    · right
      rw [if_pos hqk] at hqe
      subst hqe
      exact hpe.symm
    · left
      rw [if_neg hqk] at hqe
      subst hqe
      exact List.mem_map.mpr ⟨q, hq, hpe⟩
  · rw [if_neg hk, List.map_append] at h
    rcases List.mem_append.mp h with h1 | h2
    · exact Or.inl h1
    · right
      simp only [List.map_cons, List.map_nil, List.mem_singleton] at h2
      exact h2

/-- A successful `dictGet` certifies membership of the key. -/
theorem dictGet_some_hasKey (memory : List (String × String)) (k v : String)
    (h : dictGet memory k = some v) : dictHasKey memory k = true := by
  rw [dictGet] at h
  cases hf : memory.find? (fun p => p.1 == k) with
  | none =>
    rw [hf] at h
    simp at h
  | some p =>
    have hp := List.find?_some hf
    have hmem := List.mem_of_find?_eq_some hf
    simp only [dictHasKey, List.any_eq_true]
    exact ⟨p, hmem, hp⟩

/-- Invariant of the copy loop in `perceive`: every key of the built
`contextual_memory` that is not a key of the accumulator came from a
successful lookup in `memory`. -/
theorem buildContextualMemory_keys (memory : List (String × String)) :
    ∀ (keys : List String) (acc ctx : List (String × String)),
      buildContextualMemory memory keys acc = .ok ctx →
      (∀ k, k ∈ acc.map Prod.fst → dictHasKey memory k = true) →
      (∀ k, k ∈ ctx.map Prod.fst → dictHasKey memory k = true) := by
  intro keys
  induction keys with
  | nil =>
    intro acc ctx h hacc
    simp only [buildContextualMemory] at h
    cases h
    exact hacc
  | cons k rest ih =>
    intro acc ctx h hacc
    simp only [buildContextualMemory] at h
    cases hg : dictGet memory k with
    | none =>
      rw [hg] at h
      cases h
    | some v =>
      rw [hg] at h
      refine ih (dictSet acc k v) ctx h ?_
      intro k2 hk2
      rcases dictSet_key_mem acc k v k2 hk2 with hold | hnew
      · exact hacc k2 hold
      · subst hnew
        exact dictGet_some_hasKey memory k2 v hg

/-- C3 counterexample: the perceive step does not fail safe.  A
key-selection response naming a key absent from the (empty) memory store
raises `KeyError` instead of producing a subset, and an unparseable
response raises `ValidationError` instead of yielding an empty subset. -/
theorem C3_perceive_raises_counterexample :
    ChatAgentWithMemory.perceive [] (.parsed ["x"]) =
      .error (.keyError "x") ∧
    ChatAgentWithMemory.perceive [("k", "v")] .unparseable =
      .error .validationError :=
  ⟨rfl, rfl⟩

/-- C3 (amended): whenever `perceive` completes without raising, the
`contextual_memory` it produces has a key set that is a subset of the
memory store's key set, and an empty validated key list yields the empty
subset; but an unparseable response raises `ValidationError` and a
listed key absent from the store raises `KeyError` (fail-fatal, not
fail-safe). -/
theorem C3_contextual_memory_subset (memory : List (String × String))
    (resp : KeySelResponse) (ctx : List (String × String))
    (h : ChatAgentWithMemory.perceive memory resp = .ok ctx) :
    (∀ k, k ∈ ctx.map Prod.fst → dictHasKey memory k = true) ∧
    ChatAgentWithMemory.perceive memory (.parsed []) = .ok [] := by
  refine ⟨?_, rfl⟩
  cases resp with
  | unparseable =>
    simp [ChatAgentWithMemory.perceive] at h
  | parsed keys =>
    simp only [ChatAgentWithMemory.perceive] at h
    by_cases hlen : keys.length > 0
    · rw [if_pos (by simpa using hlen)] at h
      exact buildContextualMemory_keys memory keys [] ctx h
        (by intro k hk; simp at hk)
    · rw [if_neg (by simpa using hlen)] at h
      cases h
      intro k hk
      simp at hk

/-- Witness for C3 at a concrete input: memory holding keys `a` and `b`,
response selecting `a`. -/
theorem C3_contextual_memory_subset_witness :
    ChatAgentWithMemory.perceive [("a", "1"), ("b", "2")] (.parsed ["a"]) =
      .ok [("a", "1")] ∧
    ((∀ k, k ∈ ([("a", "1")] : List (String × String)).map Prod.fst →
        dictHasKey [("a", "1"), ("b", "2")] k = true) ∧
      ChatAgentWithMemory.perceive [("a", "1"), ("b", "2")] (.parsed []) =
        .ok []) :=
  ⟨rfl,
    C3_contextual_memory_subset [("a", "1"), ("b", "2")] (.parsed ["a"])
      [("a", "1")] rfl⟩

/-- C4 counterexample: a completion call that raises during the gate
step propagates out of the whole `act` cycle instead of defaulting the
gate to false — only `ValidationError` is caught, and neither a raising
call nor the `KeyError` from subscripting a malformed response is a
`ValidationError`. -/
theorem C4_gate_error_propagates_counterexample :
    ReasoningAgent.act "A" ⟨fun _ => .raises⟩ 0 0 = .error .backendError ∧
    ReasoningAgent.act "A" ⟨fun _ => .malformed⟩ 0 0 =
      .error (.keyError "choices") :=
  ⟨rfl, rfl⟩

/-- C4 (amended): a well-formed textual answer is parsed by exact
case-insensitive comparison against `yes` and anything else gates to
false (and a `ValidationError`, the only caught exception, would default
the gate to false); but an exception raised by the completion call
itself, or the `KeyError` from a malformed response, is not caught — it
propagates out of `reason` and out of the agent's whole `act` cycle to
the scheduler. -/
theorem C4_gate_parse_and_propagation (be : Backend) (n : Nat) :
    (∀ c, be.respond n = .text c →
      ReasoningAgent.reason be n = .ok (parseYes c, n + 1)) ∧
    (be.respond n = .raises →
      ReasoningAgent.reason be n = .error .backendError) ∧
    (be.respond n = .malformed →
      ReasoningAgent.reason be n = .error (.keyError "choices")) ∧
    (∀ name now, be.respond 0 = .raises →
      ReasoningAgent.act name be 0 now = .error .backendError) := by
  refine ⟨?_, ?_, ?_, ?_⟩
  · intro c hc
    simp [ReasoningAgent.reason, hc]
  · intro hc
    simp [ReasoningAgent.reason, hc]
  · intro hc
    simp [ReasoningAgent.reason, hc]
  · intro name now hc
    simp [ReasoningAgent.act, ReasoningAgent.reason, hc]

/-- Witness for C4 at concrete backends: a backend answering `No` gates
to false, and a backend that raises makes `act` fail. -/
theorem C4_gate_parse_and_propagation_witness :
    ReasoningAgent.reason ⟨fun _ => .text "No"⟩ 0 = .ok (false, 1) ∧
    ReasoningAgent.act "A" ⟨fun _ => .raises⟩ 0 3 = .error .backendError := by
  constructor
  · have h := (C4_gate_parse_and_propagation ⟨fun _ => .text "No"⟩ 0).1 "No" rfl
    rw [show parseYes "No" = false from rfl] at h
    exact h
  · exact (C4_gate_parse_and_propagation ⟨fun _ => .raises⟩ 0).2.2.2 "A" 3 rfl

/-- C8 counterexample: with a backend that always answers `yes`, one
`act` cycle evaluates the gate three times (and issues four completion
calls in total), not exactly once. -/
theorem C8_three_gate_evals_counterexample :
    ReasoningAgent.act "A" ⟨fun _ => .text "yes"⟩ 0 0 =
      .ok ⟨⟨"yes", "A", 0⟩, 4, 3⟩ ∧
    (3 : Nat) ≠ 1 :=
  ⟨rfl, by decide⟩

/-- C8 (amended): one `act` cycle evaluates the gate between one and
three times — exactly once precisely when the first evaluation parses to
no; the duplicated guards re-evaluate it when the answer is yes, so a
cycle that reaches the respond decision has evaluated the gate three
times. -/
theorem C8_gate_eval_count (name : String) (be : Backend) (calls now : Nat)
    (r : ActResult) (h : ReasoningAgent.act name be calls now = .ok r) :
    1 ≤ r.gateEvals ∧ r.gateEvals ≤ 3 ∧
    (∀ c, be.respond calls = .text c → parseYes c = false →
      r.gateEvals = 1) := by
  cases h0 : be.respond calls with
  | raises =>
    simp only [ReasoningAgent.act, ReasoningAgent.reason, h0] at h
    exact Except.noConfusion h
  | malformed =>
    simp only [ReasoningAgent.act, ReasoningAgent.reason, h0] at h
    exact Except.noConfusion h
  | text c0 =>
    simp only [ReasoningAgent.act, ReasoningAgent.reason, h0] at h
    cases hp0 : parseYes c0 with
    | false =>
      simp only [hp0, Bool.not_false, Bool.not_true, Bool.false_eq_true,
        eq_self_iff_true, if_true, if_false] at h
      cases h
      exact ⟨(by decide : (1 : Nat) ≤ 1), (by decide : (1 : Nat) ≤ 3),
        fun c hc hpc => rfl⟩
    | true =>
      have hc0 : ∀ c, BackendResult.text c0 = BackendResult.text c →
          parseYes c = false → False := by
        intro c hc hpc
        cases hc
        rw [hp0] at hpc
        exact Bool.noConfusion hpc
      simp only [hp0, Bool.not_false, Bool.not_true, Bool.false_eq_true,
        eq_self_iff_true, if_true, if_false] at h
      cases h1 : be.respond (calls + 1) with
      | raises =>
        simp only [ReasoningAgent.reason, h1] at h
        exact Except.noConfusion h
      | malformed =>
        simp only [ReasoningAgent.reason, h1] at h
        exact Except.noConfusion h
      | text c1 =>
        simp only [ReasoningAgent.reason, h1] at h
        cases hp1 : parseYes c1 with
        | false =>
          simp only [hp1, Bool.not_false, Bool.not_true, Bool.false_eq_true,
            eq_self_iff_true, if_true, if_false] at h
          cases h
          exact ⟨(by decide : (1 : Nat) ≤ 2), (by decide : (2 : Nat) ≤ 3),
            fun c hc hpc => (hc0 c hc hpc).elim⟩
        | true =>
          simp only [hp1, Bool.not_false, Bool.not_true, Bool.false_eq_true,
            eq_self_iff_true, if_true, if_false] at h
          cases h2 : be.respond (calls + 1 + 1) with
          | raises =>
            simp only [ReasoningAgent.reason, h2] at h
            exact Except.noConfusion h
          | malformed =>
            simp only [ReasoningAgent.reason, h2] at h
            exact Except.noConfusion h
          | text c2 =>
            simp only [ReasoningAgent.reason, h2] at h
            cases hp2 : parseYes c2 with
            | false =>
              simp only [hp2, Bool.false_eq_true, eq_self_iff_true,
                if_true, if_false] at h
              cases h
              exact ⟨(by decide : (1 : Nat) ≤ 3), (by decide : (3 : Nat) ≤ 3),
                fun c hc hpc => (hc0 c hc hpc).elim⟩
            | true =>
              simp only [hp2, Bool.false_eq_true, eq_self_iff_true,
                if_true, if_false] at h
              cases h3 : be.respond (calls + 1 + 1 + 1) with
              | raises =>
                simp only [h3] at h
                exact Except.noConfusion h
              | malformed =>
                simp only [h3] at h
                exact Except.noConfusion h
              | text c3 =>
                simp only [h3] at h
                cases h
                exact ⟨(by decide : (1 : Nat) ≤ 3), (by decide : (3 : Nat) ≤ 3),
                  fun c hc hpc => (hc0 c hc hpc).elim⟩

/-- Witness for C8: a backend whose first answer is `no` yields exactly
one gate evaluation. -/
theorem C8_gate_eval_count_witness :
    ReasoningAgent.act "A" ⟨fun _ => .text "no"⟩ 0 5 =
      .ok ⟨⟨"", "A", 5⟩, 1, 1⟩ ∧
    (1 ≤ (ActResult.mk ⟨"", "A", 5⟩ 1 1).gateEvals ∧
      (ActResult.mk ⟨"", "A", 5⟩ 1 1).gateEvals ≤ 3 ∧
      (∀ c, Backend.respond ⟨fun _ => .text "no"⟩ 0 = .text c →
        parseYes c = false →
        (ActResult.mk ⟨"", "A", 5⟩ 1 1).gateEvals = 1)) :=
  ⟨rfl, C8_gate_eval_count "A" ⟨fun _ => .text "no"⟩ 0 5
    (ActResult.mk ⟨"", "A", 5⟩ 1 1) rfl⟩

/-- A successful gather returns one result per agent. -/
theorem gatherActs_length (agents : List ReasoningAgentSpec) :
    ∀ results, gatherActs agents = .ok results →
      results.length = agents.length := by
  induction agents with
  | nil =>
    intro results h
    simp only [gatherActs] at h
    cases h
    rfl
  | cons a rest ih =>
    intro results h
    simp only [gatherActs] at h
    cases ha : ReasoningAgent.act a.name a.backend 0 a.now with
    | error e =>
      rw [ha] at h
      exact Except.noConfusion h
    | ok r =>
      rw [ha] at h
      cases hg : gatherActs rest with
      | error e =>
        rw [hg] at h
        exact Except.noConfusion h
      | ok rs =>
        rw [hg] at h
        cases h
        simp [ih rs hg]

/-- C2 (amended): a successful tick appends every agent's response to
the log — including the empty-text messages of gated agents that
refused — so the log grows by exactly the number of agents (not by the
number of non-empty responses, and not by zero when every agent
refuses), while the pre-existing prefix is unchanged.  In the two-agent
scenario (A responds `hi`, B refuses) the log gains two messages: A's
`hi` and B's empty message. -/
theorem C2_tick_appends_one_message_per_agent
    (agents : List ReasoningAgentSpec) (room r : ChatRoom)
    (h : ReasoningYamlAgorama.tick agents room = .ok r) :
    r.messages.length = room.messages.length + agents.length ∧
    r.messages.take room.messages.length = room.messages := by
  rw [ReasoningYamlAgorama.tick] at h
  cases hg : gatherActs agents with
  | error e =>
    rw [hg] at h
    exact Except.noConfusion h
  | ok results =>
    rw [hg] at h
    cases h
    have hlen := gatherActs_length agents results hg
    constructor
    · simp [ReasoningYamlAgorama.tickCommit, foldl_add_message,
        List.length_insertionSort, hlen]
    · rw [ReasoningYamlAgorama.tickCommit, foldl_add_message]
      exact List.take_left _ _

/-- C2 counterexample: agent A whose gate always answers yes and whose
response is `hi`, agent B whose gate answers no (so it returns an
empty-text message): one tick on an empty room commits TWO messages —
B's empty message is appended too — so the log does not gain exactly one
message and a tick of refusing agents still grows the log. -/
theorem C2_refusal_message_committed_counterexample :
    ReasoningYamlAgorama.tick
      [⟨"A", ⟨fun n => if n < 3 then .text "yes" else .text "hi"⟩, 1⟩,
       ⟨"B", ⟨fun _ => .text "no"⟩, 2⟩]
      ⟨"Agorama", []⟩ =
      .ok ⟨"Agorama", [⟨"", "B", 2⟩, ⟨"hi", "A", 1⟩]⟩ ∧
    ([⟨"", "B", 2⟩, ⟨"hi", "A", 1⟩] : List ChatMessage).length ≠ 0 + 1 :=
  ⟨rfl, by decide⟩

/-- Witness for C2 at the two-agent scenario: the log of the empty room
grows to exactly two messages with an unchanged (empty) prefix. -/
theorem C2_tick_appends_one_message_per_agent_witness :
    (⟨"Agorama", [⟨"", "B", 2⟩, ⟨"hi", "A", 1⟩]⟩ : ChatRoom).messages.length =
      (⟨"Agorama", ([] : List ChatMessage)⟩ : ChatRoom).messages.length + 2 ∧
    (⟨"Agorama", [⟨"", "B", 2⟩, ⟨"hi", "A", 1⟩]⟩ : ChatRoom).messages.take
        (⟨"Agorama", ([] : List ChatMessage)⟩ : ChatRoom).messages.length =
      (⟨"Agorama", ([] : List ChatMessage)⟩ : ChatRoom).messages :=
  C2_tick_appends_one_message_per_agent
    [⟨"A", ⟨fun n => if n < 3 then .text "yes" else .text "hi"⟩, 1⟩,
     ⟨"B", ⟨fun _ => .text "no"⟩, 2⟩]
    ⟨"Agorama", []⟩ ⟨"Agorama", [⟨"", "B", 2⟩, ⟨"hi", "A", 1⟩]⟩ rfl

/-- C1, evaluated at the failing input: two agents that both respond
(their gates answer yes), with response timestamps 1 and 2, on an empty
room.  The tick commits the segment in strictly DECREASING `created_at`
order — `sorted(..., reverse=True)` puts the largest timestamp first,
contradicting both the source's own comment ("largest timestamp last")
and the claimed non-decreasing order. -/
theorem C1_tick_commits_descending :
    ReasoningYamlAgorama.tick
      [⟨"C", ⟨fun n => if n < 3 then .text "yes" else .text "a"⟩, 1⟩,
       ⟨"D", ⟨fun n => if n < 3 then .text "yes" else .text "b"⟩, 2⟩]
      ⟨"Agorama", []⟩ =
      .ok ⟨"Agorama", [⟨"b", "D", 2⟩, ⟨"a", "C", 1⟩]⟩ ∧
    ¬ ([⟨"b", "D", 2⟩, ⟨"a", "C", 1⟩] : List ChatMessage).Pairwise
        (fun a b => a.created_at ≤ b.created_at) :=
  ⟨rfl, by decide⟩
